import Mathlib

/-!
Shallow embedding of `src/server/models/user.py` (PlanarAlly account model):
the `UserOptions` preference record, the `User` account record, their
serialization (`as_dict`, via peewee's `model_to_dict`), credential handling
(`set_password` / `check_password`, via the external bcrypt library), and the
case-insensitive lookup `by_name`.

Conventions of the embedding:
- Nullable columns are `Option` fields; a peewee model instance is a Lean
  structure including its `id`.
- `model_to_dict` output is a `List (String × Option Value)` in field
  declaration order (peewee iterates fields in declaration order; key order
  is unspecified by the spec, the list fixes one).
- The persistent store is threaded explicitly (`Store`); a method that never
  touches the store (no `.save()`, no query) passes it through unchanged or
  does not take it at all.
- bcrypt is an external library, not repository code. It is modelled
  ideally: `hashpw` embeds the salt and an injective digest of the password
  (the real digest is one-way; injectivity is the collision-resistance
  assumption the spec itself makes), and `checkpw` raises (`Except.error`)
  on a hash text that does not parse as a bcrypt hash, as the real library
  does (`ValueError: Invalid salt`).
-/

namespace PlanarAlly

/-- A value stored in a column / appearing in a serialized dict:
text, boolean, integer or float (floats modelled as rationals; the only
float in play is the exact `mini_size` default `1.0`). -/
inductive Value where
  | vstr (s : String)
  | vbool (b : Bool)
  | vint (i : Int)
  | vfloat (q : Rat)
deriving DecidableEq, Repr

/-- The `UserOptions` model: thirteen independently nullable preference
columns plus the implicit primary key `id`
(`class UserOptions(BaseModel)` in `src/server/models/user.py`). -/
structure UserOptions where
  id : Nat
  fow_colour : Option String
  grid_colour : Option String
  ruler_colour : Option String
  invert_alt : Option Bool
  disable_scroll_to_zoom : Option Bool
  use_high_dpi : Option Bool
  grid_size : Option Int
  use_as_physical_board : Option Bool
  mini_size : Option Rat
  ppi : Option Int
  initiative_camera_lock : Option Bool
  initiative_vision_lock : Option Bool
  initiative_effect_visibility : Option String
deriving DecidableEq, Repr

/-- Keyword arguments of `UserOptions.create(**kwargs)`: for each column,
`none` means the keyword was not passed (peewee then applies the column's
declared default), `some v` means it was passed with value `v`
(possibly `some none`, i.e. explicitly `None`). -/
structure UserOptionsKwargs where
  fow_colour : Option (Option String) := none
  grid_colour : Option (Option String) := none
  ruler_colour : Option (Option String) := none
  invert_alt : Option (Option Bool) := none
  disable_scroll_to_zoom : Option (Option Bool) := none
  use_high_dpi : Option (Option Bool) := none
  grid_size : Option (Option Int) := none
  use_as_physical_board : Option (Option Bool) := none
  mini_size : Option (Option Rat) := none
  ppi : Option (Option Int) := none
  initiative_camera_lock : Option (Option Bool) := none
  initiative_vision_lock : Option (Option Bool) := none
  initiative_effect_visibility : Option (Option String) := none

/-- Peewee's `UserOptions.create(**kwargs)`: each column takes the passed
keyword value, or the column's declared default when the keyword is absent
(`TextField(default="#000", null=True)` etc. in the class body). `freshId`
is the system-assigned primary key of the new row. -/
def UserOptions.create (freshId : Nat) (kw : UserOptionsKwargs) : UserOptions where
  id := freshId
  fow_colour := kw.fow_colour.getD (some "#000")
  grid_colour := kw.grid_colour.getD (some "#000")
  ruler_colour := kw.ruler_colour.getD (some "#F00")
  invert_alt := kw.invert_alt.getD (some false)
  disable_scroll_to_zoom := kw.disable_scroll_to_zoom.getD (some false)
  use_high_dpi := kw.use_high_dpi.getD (some false)
  grid_size := kw.grid_size.getD (some 50)
  use_as_physical_board := kw.use_as_physical_board.getD (some false)
  mini_size := kw.mini_size.getD (some 1)
  ppi := kw.ppi.getD (some 96)
  initiative_camera_lock := kw.initiative_camera_lock.getD (some false)
  initiative_vision_lock := kw.initiative_vision_lock.getD (some false)
  initiative_effect_visibility := kw.initiative_effect_visibility.getD (some "active")

/-- The source's `UserOptions.create_empty`: it calls `UserOptions.create`
passing `None` for exactly the eleven keywords that appear in the source
call — `mini_size` and `ppi` are NOT among them, exactly as in
`src/server/models/user.py` lines 38-51. -/
def UserOptions.create_empty (freshId : Nat) : UserOptions :=
  UserOptions.create freshId
    { fow_colour := some none
      grid_colour := some none
      ruler_colour := some none
      invert_alt := some none
      disable_scroll_to_zoom := some none
      use_high_dpi := some none
      grid_size := some none
      use_as_physical_board := some none
      initiative_camera_lock := some none
      initiative_vision_lock := some none
      initiative_effect_visibility := some none }

/-- Playhouse's `model_to_dict(self, backrefs=None, recurse=None,
exclude=[UserOptions.id])` on a `UserOptions` instance: every column except
the excluded `id`, in declaration order, null columns mapped to null. -/
def UserOptions.model_to_dict (o : UserOptions) : List (String × Option Value) :=
  [("fow_colour", o.fow_colour.map .vstr),
   ("grid_colour", o.grid_colour.map .vstr),
   ("ruler_colour", o.ruler_colour.map .vstr),
   ("invert_alt", o.invert_alt.map .vbool),
   ("disable_scroll_to_zoom", o.disable_scroll_to_zoom.map .vbool),
   ("use_high_dpi", o.use_high_dpi.map .vbool),
   ("grid_size", o.grid_size.map .vint),
   ("use_as_physical_board", o.use_as_physical_board.map .vbool),
   ("mini_size", o.mini_size.map .vfloat),
   ("ppi", o.ppi.map .vint),
   ("initiative_camera_lock", o.initiative_camera_lock.map .vbool),
   ("initiative_vision_lock", o.initiative_vision_lock.map .vbool),
   ("initiative_effect_visibility", o.initiative_effect_visibility.map .vstr)]

/-- The source's `UserOptions.as_dict`: the dict comprehension
`{k: v for k, v in model_to_dict(...).items() if v is not None}` —
`model_to_dict` output with the null entries dropped. -/
def UserOptions.as_dict (o : UserOptions) : List (String × Value) :=
  o.model_to_dict.filterMap (fun kv => kv.2.map (fun v => (kv.1, v)))

/-- The textual content of a `password_hash` column, modelled up to the
bcrypt library's parse of it: a string either parses as a well-formed
bcrypt hash (carrying its salt and a digest) or it does not (`malformed`).
The digest of the ideal model is injective in the password (the
collision-resistance assumption of the spec); it is represented by the
password string itself, standing in for the real one-way digest. -/
inductive HashText where
  | bcrypt (salt : Nat) (digest : String)
  | malformed (text : String)
deriving DecidableEq, Repr

/-- Model of the external library call `bcrypt.gensalt()`: a fresh random
salt. The randomness is an input of the model (explicit `entropy`). -/
def bcryptGensalt (entropy : Nat) : Nat := entropy

/-- Model of the external library call `bcrypt.hashpw(password, salt)`:
a well-formed bcrypt hash text embedding the salt and the (ideal,
injective) digest of the password. -/
def bcryptHashpw (password : String) (salt : Nat) : HashText :=
  .bcrypt salt password

/-- Model of the external library call `bcrypt.checkpw(password, hash)`:
on a well-formed hash it recomputes with the stored salt and compares
(constant-time in the real library), returning a boolean; on a text that
does not parse as a bcrypt hash it raises `ValueError("Invalid salt")`,
modelled as `Except.error`. -/
def bcryptCheckpw (password : String) (hash : HashText) : Except String Bool :=
  match hash with
  | .bcrypt _ digest => .ok (digest == password)
  | .malformed _ => .error "Invalid salt"

/-- The `User` model of `src/server/models/user.py`: `name` (required),
`email` (nullable), `password_hash` (required in the schema, but unset —
`None` — on an in-memory instance before a password is set), and the
foreign key `default_options` (the id of the owned `UserOptions` row). -/
structure User where
  id : Nat
  name : String
  email : Option String
  password_hash : Option HashText
  default_options : Nat
deriving DecidableEq, Repr

/-- The persistent store: one table of `UserOptions` rows and one of
`User` rows. -/
structure Store where
  userOptionsRows : List UserOptions
  userRows : List User
deriving DecidableEq, Repr

/-- The source's `User.set_password(self, pw)`: hash the plaintext with a
fresh salt and assign the result to `self.password_hash`. The body performs
only this in-memory mutation — it contains no `.save()` and no query — so
the store threads through unchanged. The fresh salt from `bcrypt.gensalt()`
is an explicit input. -/
def User.set_password (db : Store) (u : User) (pw : String) (salt : Nat) :
    Store × User :=
  (db, { u with password_hash := some (bcryptHashpw pw (bcryptGensalt salt)) })

/-- The source's `User.check_password(self, pw)`: `False` when
`self.password_hash is None`, otherwise the result of
`bcrypt.checkpw(pw.encode("utf8"), expected_hash)` — an exception from the
library (malformed stored hash) propagates, hence the `Except` result. -/
def User.check_password (u : User) (pw : String) : Except String Bool :=
  match u.password_hash with
  | none => .ok false
  | some h => bcryptCheckpw pw h

/-- The source's `User.as_dict`: `model_to_dict(self, recurse=False,
exclude=[User.id, User.password_hash, User.default_options])` — the
remaining columns `name` and `email` in declaration order, nulls kept. -/
def User.as_dict (u : User) : List (String × Option Value) :=
  [("name", some (.vstr u.name)), ("email", u.email.map .vstr)]

/-- The source's `User.by_name(cls, name)`:
`cls.get_or_none(fn.Lower(cls.name) == name.lower())` — the first stored
row whose lowercased `name` equals the lowercased input, or `none`. -/
def User.by_name (db : Store) (name : String) : Option User :=
  db.userRows.find? (fun u => u.name.toLower == name.toLower)

/-- The key set of a serialized dict. -/
def dictKeys {α : Type} (d : List (String × α)) : List String :=
  d.map Prod.fst

/-- A concrete account used to instantiate universally quantified
theorems: fresh, no email, no password set yet. -/
def sampleUser : User :=
  { id := 0, name := "alice", email := none, password_hash := none,
    default_options := 0 }

/-- An empty store. -/
def emptyStore : Store := { userOptionsRows := [], userRows := [] }

/-- C1: the claim says `create_empty()` nulls every preference field and an
immediate `as_dict()` is empty. In the source, the `create` call of
`create_empty` omits the keywords `mini_size` and `ppi`, so peewee applies
their declared defaults (`1.0` and `96`): the created record has
`mini_size = 1.0` and `ppi = 96`, and the immediate `as_dict()` is the
non-empty mapping `{"mini_size": 1.0, "ppi": 96}`. -/
theorem create_empty_keeps_mini_size_and_ppi_defaults :
    (UserOptions.create_empty 0).mini_size = some 1 ∧
    (UserOptions.create_empty 0).ppi = some 96 ∧
    (UserOptions.create_empty 0).as_dict =
      [("mini_size", Value.vfloat 1), ("ppi", Value.vint 96)] ∧
    (UserOptions.create_empty 0).as_dict ≠ [] := by
  refine ⟨rfl, rfl, rfl, ?_⟩
  decide

/-- C2: for every account state, including immediately after
`set_password`, the mapping returned by `User.as_dict` contains no key
equal to `"password_hash"` (the serialization is independent of the hash:
`set_password` does not change `as_dict` at all). -/
theorem user_as_dict_never_has_password_hash_key
    (db : Store) (u : User) (pw : String) (salt : Nat) :
    "password_hash" ∉ dictKeys u.as_dict ∧
    (User.set_password db u pw salt).2.as_dict = u.as_dict := by
  constructor
  · simp [dictKeys, User.as_dict]
  · rfl

/-- C3: setting a password and then checking the same plaintext succeeds:
`check_password` returns `true` after `set_password(p)` with input `p`,
for every prior account state and every fresh salt. -/
theorem set_password_then_check_password_succeeds
    (db : Store) (u : User) (pw : String) (salt : Nat) :
    ((User.set_password db u pw salt).2).check_password pw = Except.ok true := by
  simp [User.set_password, User.check_password, bcryptHashpw, bcryptCheckpw,
    bcryptGensalt]

/-- C4: setting a password `p1` and then checking a different plaintext
`p2` fails — `check_password` returns `false` (in the ideal collision-free
model of the hash, which is the claim's own collision-resistance
assumption). -/
theorem set_password_then_check_wrong_password_fails
    (db : Store) (u : User) (p1 p2 : String) (salt : Nat) (h : p1 ≠ p2) :
    ((User.set_password db u p1 salt).2).check_password p2 = Except.ok false := by
  simp [User.set_password, User.check_password, bcryptHashpw, bcryptCheckpw,
    bcryptGensalt]
  exact fun hh => h hh

/-- Witness for C4 at a concrete input: two distinct concrete passwords. -/
theorem set_password_then_check_wrong_password_fails_witness :
    ((User.set_password emptyStore sampleUser "hunter2" 0).2).check_password
      "hunter3" = Except.ok false :=
  set_password_then_check_wrong_password_fails emptyStore sampleUser
    "hunter2" "hunter3" 0 (by decide)

/-- C5: an account whose `password_hash` is unset never authenticates —
`check_password` returns `false` (not an error) for every plaintext. -/
theorem check_password_without_credential_fails
    (u : User) (pw : String) (h : u.password_hash = none) :
    u.check_password pw = Except.ok false := by
  simp [User.check_password, h]

/-- Witness for C5 at a concrete input: the fresh sample account. -/
theorem check_password_without_credential_fails_witness :
    sampleUser.check_password "anything" = Except.ok false :=
  check_password_without_credential_fails sampleUser "anything" rfl

/-- C6 counterexample: with a malformed stored hash, `check_password` does
not return `false` — the bcrypt library's `ValueError("Invalid salt")`
propagates (modelled as `Except.error`), refuting the claim that a
corrupted hash yields `false` rather than an exception. -/
theorem check_password_malformed_hash_errors :
    ({ sampleUser with
        password_hash := some (HashText.malformed "not-a-bcrypt-hash") } :
      User).check_password "pw" = Except.error "Invalid salt" ∧
    ({ sampleUser with
        password_hash := some (HashText.malformed "not-a-bcrypt-hash") } :
      User).check_password "pw" ≠ Except.ok false := by
  refine ⟨rfl, ?_⟩
  intro hcontr
  exact Except.noConfusion hcontr

/-- C6 amended: `check_password` returns a boolean and never raises for a
wrong password as long as the stored hash is absent or well-formed; it
raises (propagates the hash-library error) exactly when the stored
`password_hash` is a malformed hash string. -/
theorem check_password_errors_iff_malformed_hash (u : User) (pw : String) :
    (∃ e, u.check_password pw = Except.error e) ↔
      (∃ s, u.password_hash = some (HashText.malformed s)) := by
  cases h : u.password_hash with
  | none => simp [User.check_password, h]
  | some ht => cases ht <;> simp [User.check_password, h, bcryptCheckpw]

set_option maxHeartbeats 3000000 in
/-- C7: for every `UserOptions` record, `as_dict` never contains the
identity key, and contains a field's key exactly when that field's value is
non-null. (Non-mutation holds by construction: `as_dict` is a pure
function of the record.) -/
theorem options_as_dict_keys_iff_non_null (o : UserOptions) :
    "id" ∉ dictKeys o.as_dict ∧
    ("fow_colour" ∈ dictKeys o.as_dict ↔ o.fow_colour ≠ none) ∧
    ("grid_colour" ∈ dictKeys o.as_dict ↔ o.grid_colour ≠ none) ∧
    ("ruler_colour" ∈ dictKeys o.as_dict ↔ o.ruler_colour ≠ none) ∧
    ("invert_alt" ∈ dictKeys o.as_dict ↔ o.invert_alt ≠ none) ∧
    ("disable_scroll_to_zoom" ∈ dictKeys o.as_dict ↔
      o.disable_scroll_to_zoom ≠ none) ∧
    ("use_high_dpi" ∈ dictKeys o.as_dict ↔ o.use_high_dpi ≠ none) ∧
    ("grid_size" ∈ dictKeys o.as_dict ↔ o.grid_size ≠ none) ∧
    ("use_as_physical_board" ∈ dictKeys o.as_dict ↔
      o.use_as_physical_board ≠ none) ∧
    ("mini_size" ∈ dictKeys o.as_dict ↔ o.mini_size ≠ none) ∧
    ("ppi" ∈ dictKeys o.as_dict ↔ o.ppi ≠ none) ∧
    ("initiative_camera_lock" ∈ dictKeys o.as_dict ↔
      o.initiative_camera_lock ≠ none) ∧
    ("initiative_vision_lock" ∈ dictKeys o.as_dict ↔
      o.initiative_vision_lock ≠ none) ∧
    ("initiative_effect_visibility" ∈ dictKeys o.as_dict ↔
      o.initiative_effect_visibility ≠ none) := by
  refine ⟨?_, ?_, ?_, ?_, ?_, ?_, ?_, ?_, ?_, ?_, ?_, ?_, ?_, ?_⟩
  · simp [dictKeys, UserOptions.as_dict, UserOptions.model_to_dict,
      List.mem_filterMap, Option.map_eq_some']
  · cases h : o.fow_colour <;>
      simp [dictKeys, UserOptions.as_dict, UserOptions.model_to_dict, h,
        List.mem_filterMap, Option.map_eq_some']
  · cases h : o.grid_colour <;>
      simp [dictKeys, UserOptions.as_dict, UserOptions.model_to_dict, h,
        List.mem_filterMap, Option.map_eq_some']
  · cases h : o.ruler_colour <;>
      simp [dictKeys, UserOptions.as_dict, UserOptions.model_to_dict, h,
        List.mem_filterMap, Option.map_eq_some']
  · cases h : o.invert_alt <;>
      simp [dictKeys, UserOptions.as_dict, UserOptions.model_to_dict, h,
        List.mem_filterMap, Option.map_eq_some']
  · cases h : o.disable_scroll_to_zoom <;>
      simp [dictKeys, UserOptions.as_dict, UserOptions.model_to_dict, h,
        List.mem_filterMap, Option.map_eq_some']
  · cases h : o.use_high_dpi <;>
      simp [dictKeys, UserOptions.as_dict, UserOptions.model_to_dict, h,
        List.mem_filterMap, Option.map_eq_some']
  · cases h : o.grid_size <;>
      simp [dictKeys, UserOptions.as_dict, UserOptions.model_to_dict, h,
        List.mem_filterMap, Option.map_eq_some']
  · cases h : o.use_as_physical_board <;>
      simp [dictKeys, UserOptions.as_dict, UserOptions.model_to_dict, h,
        List.mem_filterMap, Option.map_eq_some']
  · cases h : o.mini_size <;>
      simp [dictKeys, UserOptions.as_dict, UserOptions.model_to_dict, h,
        List.mem_filterMap, Option.map_eq_some']
  · cases h : o.ppi <;>
      simp [dictKeys, UserOptions.as_dict, UserOptions.model_to_dict, h,
        List.mem_filterMap, Option.map_eq_some']
  · cases h : o.initiative_camera_lock <;>
      simp [dictKeys, UserOptions.as_dict, UserOptions.model_to_dict, h,
        List.mem_filterMap, Option.map_eq_some']
  · cases h : o.initiative_vision_lock <;>
      simp [dictKeys, UserOptions.as_dict, UserOptions.model_to_dict, h,
        List.mem_filterMap, Option.map_eq_some']
  · cases h : o.initiative_effect_visibility <;>
      simp [dictKeys, UserOptions.as_dict, UserOptions.model_to_dict, h,
        List.mem_filterMap, Option.map_eq_some']

/-- C8: `by_name` returns only stored accounts whose lowercased name equals
the lowercased input; it returns some account whenever such an account
exists; and it returns the explicit "not found" result (`none`, no
exception) exactly when no stored account matches. -/
theorem by_name_case_insensitive_lookup (db : Store) (name : String) :
    (∀ u, User.by_name db name = some u →
        u ∈ db.userRows ∧ u.name.toLower = name.toLower) ∧
    ((∃ u ∈ db.userRows, u.name.toLower = name.toLower) →
        ∃ u, User.by_name db name = some u) ∧
    (User.by_name db name = none ↔
        ∀ u ∈ db.userRows, u.name.toLower ≠ name.toLower) := by
  refine ⟨?_, ?_, ?_⟩
  · intro u hu
    exact ⟨List.mem_of_find?_eq_some hu, by simpa using List.find?_some hu⟩
  · intro ⟨u, hu, hn⟩
    have hs : (db.userRows.find?
        (fun v => v.name.toLower == name.toLower)).isSome := by
      rw [List.find?_isSome]
      exact ⟨u, hu, by simpa using hn⟩
    exact Option.isSome_iff_exists.mp hs
  · rw [User.by_name, List.find?_eq_none]
    simp

/-- C9: `set_password` issues no store write (the store component is
returned unchanged) and mutates only the `password_hash` field: `id`,
`name`, `email` and `default_options` are all preserved. -/
theorem set_password_frame (db : Store) (u : User) (pw : String) (salt : Nat) :
    (User.set_password db u pw salt).1 = db ∧
    ((User.set_password db u pw salt).2).id = u.id ∧
    ((User.set_password db u pw salt).2).name = u.name ∧
    ((User.set_password db u pw salt).2).email = u.email ∧
    ((User.set_password db u pw salt).2).default_options = u.default_options ∧
    ((User.set_password db u pw salt).2).password_hash =
      some (bcryptHashpw pw (bcryptGensalt salt)) := by
  exact ⟨rfl, rfl, rfl, rfl, rfl, rfl⟩

/-- C10: for every account, `User.as_dict` has key set exactly
`["name", "email"]`, and — unlike `UserOptions.as_dict` — null fields are
kept: the `"email"` key maps to null exactly when no email is set. -/
theorem user_as_dict_keys_exactly_name_email (u : User) :
    dictKeys u.as_dict = ["name", "email"] ∧
    (("email", (none : Option Value)) ∈ u.as_dict ↔ u.email = none) := by
  cases h : u.email <;> simp [dictKeys, User.as_dict, h]

end PlanarAlly
